import Mathlib

/-!
# Verification of the CAPTCHA-protection / bot-detection core

Shallow embedding of the `blacklistSystem` singleton, the interaction
analyzer `analyzeInteractions` and the fingerprint collector
`collectFingerprintComponents` of the repository, together with proofs of
the behavioral properties stated in the specification.

Modeling conventions:
* JS millisecond timestamps (`Date.now()`) are `Nat` values passed
  explicitly as a `now` argument; a single call of an operation observes a
  single `now` value.
* JS objects used as string-keyed maps are association lists
  `List (String × α)` whose keys are pairwise distinct (JS objects cannot
  hold a key twice); `getKey`/`setKey`/`eraseKey` mirror property read,
  property assignment and `delete`.
* `localStorage` slots are modeled by `Stored α`: the storage may be
  unavailable (every access throws), hold malformed JSON (`JSON.parse`
  throws), hold nothing (`getItem` returns `null`, so the code parses the
  default `'{}'`), or hold a parsed value.
* JS numbers occurring in the scoring code are modeled by `ℚ`.  All
  numerators/denominators reachable in `hasTooManySuspiciousPatterns` are
  small dyadic rationals, and no reachable ratio lies strictly between the
  rational `2/5` and the IEEE double printed `0.4`, so the rational
  comparison decides exactly as the JS one.  The same argument applies to
  the `0.3` threshold of `analyzeInteractions` (quotients `k/n` for the
  sample counts involved never fall inside the double-rounding gap).
* Exceptions are modeled by `Except Unit`; a `try/catch` in the source
  becomes a total function returning the catch-branch value on `error`.
-/

/-- Association-list read: JS property read `m[k]`. -/
def getKey {α : Type} (m : List (String × α)) (k : String) : Option α :=
  match m with
  | [] => none
  | (k', v) :: t => if k' = k then some v else getKey t k

/-- Association-list write: JS property assignment `m[k] = v`
(keeps the position of an existing key, appends a fresh key). -/
def setKey {α : Type} (m : List (String × α)) (k : String) (v : α) :
    List (String × α) :=
  match m with
  | [] => [(k, v)]
  | (k', v') :: t => if k' = k then (k, v) :: t else (k', v') :: setKey t k v

/-- Association-list delete: JS `delete m[k]`. -/
def eraseKey {α : Type} (m : List (String × α)) (k : String) :
    List (String × α) :=
  match m with
  | [] => []
  | (k', v') :: t => if k' = k then eraseKey t k else (k', v') :: eraseKey t k

theorem getKey_setKey_self {α : Type} (m : List (String × α)) (k : String)
    (v : α) : getKey (setKey m k v) k = some v := by
  induction m with
  | nil => simp [getKey, setKey]
  | cons h t ih =>
    obtain ⟨k', v'⟩ := h
    by_cases hk : k' = k
    · simp [getKey, setKey, hk]
    · simp [getKey, setKey, hk, ih]

theorem getKey_eraseKey_self {α : Type} (m : List (String × α)) (k : String) :
    getKey (eraseKey m k) k = none := by
  induction m with
  | nil => simp [getKey, eraseKey]
  | cons h t ih =>
    obtain ⟨k', v'⟩ := h
    by_cases hk : k' = k
    · simp [eraseKey, hk, ih]
    · simp [getKey, eraseKey, hk, ih]

/-- A `localStorage` slot holding a JSON-encoded value of type `α`:
`unavailable` = every storage access throws, `corrupt` = `getItem`
succeeds but `JSON.parse` throws, `absent` = `getItem` returns `null`
(the code then parses the `'{}'` default), `val` = a parseable value. -/
inductive Stored (α : Type) where
  | unavailable : Stored α
  | corrupt : Stored α
  | absent : Stored α
  | val : α → Stored α
deriving DecidableEq

/-- One `{reason, timestamp}` element of a `reasons` array. -/
structure AttemptReason where
  reason : String
  timestamp : Nat
deriving DecidableEq

/-- The per-client record in `blacklistSystem.failedAttempts`. -/
structure FailedAttemptRecord where
  count : Nat
  reasons : List AttemptReason
  firstAttempt : Nat
deriving DecidableEq

/-- The per-client record in the persisted `captcha_blacklist` map. -/
structure BlacklistEntry where
  added : Nat
  expires : Nat
  reasons : List AttemptReason
deriving DecidableEq

/-- Model of `blacklistSystem.thresholds` (source lines 60-63). -/
structure Thresholds where
  maxFailedAttempts : Nat
  blacklistDuration : Nat
deriving DecidableEq

def thresholds : Thresholds :=
  { maxFailedAttempts := 3, blacklistDuration := 86400 }

/-- The mutable state of the `blacklistSystem` singleton together with the
two `localStorage` slots it reads and writes. -/
structure BLState where
  blacklistedIPs : List String
  failedAttempts : List (String × FailedAttemptRecord)
  store_blacklist : Stored (List (String × BlacklistEntry))
  store_attempts : Stored (List (String × FailedAttemptRecord))
deriving DecidableEq

/-- Read a client's entry out of a stored map (used to observe the
persisted blacklist); a slot that cannot be parsed holds no entry. -/
def lookupStored {α : Type} (s : Stored (List (String × α))) (k : String) :
    Option α :=
  match s with
  | .val m => getKey m k
  | _ => none

/-- Model of `blacklistSystem.isClientBlacklisted` (source lines 160-167):
parses `captcha_blacklist` (default `'{}'`), returns
`!!blacklist[clientId] && blacklist[clientId].expires > Date.now()`;
any exception is caught and yields `false`. -/
def isClientBlacklisted (st : BLState) (clientId : String) (now : Nat) :
    Bool :=
  match st.store_blacklist with
  | .unavailable => false
  | .corrupt => false
  | .absent => false
  | .val m =>
    match getKey m clientId with
    | none => false
    | some e => decide (e.expires > now)

/-- Model of `blacklistSystem.addToBlacklist` (source lines 208-227): parses the
stored blacklist, inserts `{added: now, expires: now + duration*1000,
reasons}`, writes it back and appends the client to the runtime
`blacklistedIPs`; any exception is caught (entry not stored). -/
def addToBlacklist (st : BLState) (clientId : String)
    (reasons : List AttemptReason) (now : Nat) : BLState :=
  let entry : BlacklistEntry :=
    { added := now
      expires := now + thresholds.blacklistDuration * 1000
      reasons := reasons }
  match st.store_blacklist with
  | .unavailable => st
  | .corrupt => st
  | .absent =>
    { st with
        store_blacklist := .val (setKey [] clientId entry)
        blacklistedIPs := st.blacklistedIPs ++ [clientId] }
  | .val m =>
    { st with
        store_blacklist := .val (setKey m clientId entry)
        blacklistedIPs := st.blacklistedIPs ++ [clientId] }

/-- Model of `blacklistSystem.saveFailedAttempts` (source lines 255-261): writes
the in-memory `failedAttempts` map to storage; a throwing `setItem` is
caught and leaves the slot unchanged. -/
def saveFailedAttempts (st : BLState) : BLState :=
  match st.store_attempts with
  | .unavailable => st
  | _ => { st with store_attempts := .val st.failedAttempts }

/-- Model of `blacklistSystem.recordFailedAttempt` (source lines 174-201):
initializes the client's record if absent, increments `count`, appends
`{reason, timestamp}`, escalates to the blacklist and deletes the record
when `count >= maxFailedAttempts`, then saves the attempt map. -/
def recordFailedAttempt (st : BLState) (clientId reason : String)
    (now : Nat) : BLState :=
  let r0 : FailedAttemptRecord :=
    match getKey st.failedAttempts clientId with
    | none => { count := 0, reasons := [], firstAttempt := now }
    | some r => r
  let r1 : FailedAttemptRecord :=
    { r0 with
        count := r0.count + 1
        reasons := r0.reasons ++ [{ reason := reason, timestamp := now }] }
  let st1 : BLState :=
    { st with failedAttempts := setKey st.failedAttempts clientId r1 }
  let st2 : BLState :=
    if r1.count ≥ thresholds.maxFailedAttempts then
      let stB := addToBlacklist st1 clientId r1.reasons now
      { stB with failedAttempts := eraseKey stB.failedAttempts clientId }
    else st1
  saveFailedAttempts st2

/-- Model of `blacklistSystem.loadBlacklist` (source lines 232-239): sets
`blacklistedIPs` to the keys of the parsed blacklist; any exception is
caught and yields the empty list. -/
def loadBlacklist (st : BLState) : BLState :=
  match st.store_blacklist with
  | .unavailable => { st with blacklistedIPs := [] }
  | .corrupt => { st with blacklistedIPs := [] }
  | .absent => { st with blacklistedIPs := [] }
  | .val m => { st with blacklistedIPs := m.map Prod.fst }

/-- Model of `blacklistSystem.loadFailedAttempts` (source lines 244-250): replaces
the in-memory attempt map by the parsed stored one (empty on failure).
Defined in the source but never called by any other function. -/
def loadFailedAttempts (st : BLState) : BLState :=
  match st.store_attempts with
  | .unavailable => { st with failedAttempts := [] }
  | .corrupt => { st with failedAttempts := [] }
  | .absent => { st with failedAttempts := [] }
  | .val m => { st with failedAttempts := m }

/-- Model of `blacklistSystem.cleanupExpiredEntries` (source lines 266-289):
deletes every stored entry with `expires < now` and rewrites storage (and
the runtime key list) only if something was deleted; exceptions caught. -/
def cleanupExpiredEntries (st : BLState) (now : Nat) : BLState :=
  match st.store_blacklist with
  | .unavailable => st
  | .corrupt => st
  | .absent => st
  | .val m =>
    let m' := m.filter (fun p => !(decide (p.2.expires < now)))
    if m' = m then st
    else
      { st with
          store_blacklist := .val m'
          blacklistedIPs := m'.map Prod.fst }

/-- Model of `blacklistSystem.init` (source lines 71-77): `loadBlacklist` then
`cleanupExpiredEntries`.  Note that it does not call
`loadFailedAttempts`. -/
def blacklistInit (st : BLState) (now : Nat) : BLState :=
  cleanupExpiredEntries (loadBlacklist st) now

/-- A fresh page load: the object literal (source lines 57 and 66) starts
with `blacklistedIPs = []` and `failedAttempts = {}`, then the
`DOMContentLoaded` handler (source lines 650-652) runs `init`.  The two
storage slots survive from previous page loads. -/
def pageLoad (sb : Stored (List (String × BlacklistEntry)))
    (sa : Stored (List (String × FailedAttemptRecord))) (now : Nat) :
    BLState :=
  blacklistInit
    { blacklistedIPs := []
      failedAttempts := []
      store_blacklist := sb
      store_attempts := sa } now

/-- JS `s.includes(sub)`: `sub` occurs contiguously in `s`. -/
def jsIncludes (s sub : String) : Bool := decide (sub.data <:+: s.data)

/-- JS `s.toLowerCase()`, modeled characterwise (the strings compared in
this code are ASCII, where the two agree). -/
def jsToLower (s : String) : String := ⟨s.data.map Char.toLower⟩

/-- Model of `blacklistSystem.knownBotSignatures` (source lines 20-28). -/
def knownBotSignatures : List String :=
  ["googlebot", "bingbot", "yandexbot", "slurp", "duckduckbot", "baiduspider",
   "bytespider", "facebookexternalhit", "twitterbot", "rogerbot", "linkedinbot",
   "embedly", "quora link preview", "showyoubot", "outbrain", "pinterest",
   "slackbot", "vkshare", "w3c_validator", "postman", "curl", "wget",
   "python-requests", "ahrefs", "semrushbot", "mj12bot", "applebot", "dotbot",
   "zoominfobot", "scanner", "crawler", "spider", "headless", "scraper",
   "selenium", "webdriver", "puppeteer", "phantom", "nightmare", "jsdom"]

/-- Model of `blacklistSystem.securityTools` (source lines 31-37). -/
def securityTools : List String :=
  ["avast", "avg", "avira", "bitdefender", "kaspersky", "mcafee", "norton",
   "eset", "f-secure", "trend micro", "sophos", "symantec", "trustwave",
   "forcepoint", "checkpoint", "barracuda", "mimecast", "proofpoint",
   "fireeye", "crowdstrike", "cyren", "spamhaus", "spamcop", "netcraft",
   "virustotal", "sucuri", "urlscan", "zscaler", "office365",
   "microsoft-security", "cisco", "forcepoint", "cofense"]

/-- The `{blocked, reason}` result object of `checkBlacklist`. -/
structure CheckResult where
  blocked : Bool
  reason : Option String
deriving DecidableEq

/-- Model of `blacklistSystem.checkBlacklist` (source lines 83-119).  The user
agent and the derived client identifier are environment inputs; the
first matching bot signature and the first matching security tool each
record a failed attempt and return early; otherwise an active blacklist
entry for the client yields `blacklisted`; otherwise not blocked. -/
def checkBlacklist (st : BLState) (userAgent clientId : String)
    (now : Nat) : CheckResult × BLState :=
  let ua := jsToLower userAgent
  if knownBotSignatures.any (fun sig => jsIncludes ua sig) then
    ({ blocked := true, reason := some "known_bot" },
     recordFailedAttempt st clientId "known_bot_useragent" now)
  else if securityTools.any (fun tool => jsIncludes ua tool) then
    ({ blocked := true, reason := some "security_tool" },
     recordFailedAttempt st clientId "security_tool_detected" now)
  else if isClientBlacklisted st clientId now then
    ({ blocked := true, reason := some "blacklisted" }, st)
  else
    ({ blocked := false, reason := none }, st)

/-- Model of `blacklistSystem.suspiciousPatterns` (source lines 40-54): a record of
feature flags, all enabled in the source. -/
structure SuspiciousPatterns where
  noFonts : Bool
  noCanvas : Bool
  noWebGL : Bool
  mismatchedUA : Bool
  spoofedLanguages : Bool
  noStorage : Bool
  inconsistentFeatures : Bool
  tooBluetooth : Bool
  tooNetwork : Bool
  tamperedDOM : Bool
  perfectConsistency : Bool
  allPluginsDisabled : Bool
  unusualTimezone : Bool
deriving DecidableEq

def suspiciousPatterns : SuspiciousPatterns :=
  { noFonts := true, noCanvas := true, noWebGL := true, mismatchedUA := true
    spoofedLanguages := true, noStorage := true, inconsistentFeatures := true
    tooBluetooth := true, tooNetwork := true, tamperedDOM := true
    perfectConsistency := true, allPluginsDisabled := true
    unusualTimezone := true }

/-- The inputs read by `hasTooManySuspiciousPatterns`: the fields of the
fingerprint object it inspects plus the `navigator`/`window` properties it
consults directly.  `Option` models JS `null`/`undefined` (falsy). -/
structure SuspEnv where
  fonts : Option (List String)
  canvasHash : String
  webglVendor : Option String
  webglRenderer : Option String
  userAgent : String
  chromeDefined : Bool
  installTriggerDefined : Bool
  languages : Option (List String)
  localStorageAvail : Bool
  sessionStorageAvail : Bool
  devicePixelRatio : ℚ
  plugins : Option (List String)
deriving DecidableEq

/-- Model of `blacklistSystem.hasTooManySuspiciousPatterns` (source lines
296-370): a running `suspiciousCount` (with one half-weight check and a
user-agent slot that can contribute up to two points) over a running
`totalChecks` counter incremented once per block, compared against the
`0.4` threshold. -/
def hasTooManySuspiciousPatterns (e : SuspEnv) : Bool :=
  let sc0 : ℚ := 0
  let tc0 : Nat := 0
  -- no system fonts detected
  let sc1 := sc0 + (if suspiciousPatterns.noFonts &&
      (match e.fonts with
       | none => true
       | some l => decide (l.length < 2)) then (1 : ℚ) else 0)
  let tc1 := tc0 + 1
  -- canvas fingerprinting blocked
  let sc2 := sc1 + (if suspiciousPatterns.noCanvas &&
      decide (e.canvasHash = "canvas_not_supported") then (1 : ℚ) else 0)
  let tc2 := tc1 + 1
  -- WebGL disabled
  let sc3 := sc2 + (if suspiciousPatterns.noWebGL &&
      (e.webglVendor.isNone && e.webglRenderer.isNone) then (1 : ℚ) else 0)
  let tc3 := tc2 + 1
  -- user agent inconsistencies (one check slot, up to two points)
  let ua := jsToLower e.userAgent
  let sc4 := sc3 + (if suspiciousPatterns.mismatchedUA &&
      (jsIncludes ua "chrome" && !e.chromeDefined) then (1 : ℚ) else 0)
  let sc5 := sc4 + (if suspiciousPatterns.mismatchedUA &&
      (jsIncludes ua "firefox" && !e.installTriggerDefined) then (1 : ℚ)
    else 0)
  let tc4 := tc3 + 1
  -- suspicious languages settings
  let sc6 := sc5 + (if suspiciousPatterns.spoofedLanguages &&
      (match e.languages with
       | none => true
       | some l => decide (l.length = 0)) then (1 : ℚ) else 0)
  let tc5 := tc4 + 1
  -- storage availability
  let sc7 := sc6 + (if suspiciousPatterns.noStorage &&
      (!e.localStorageAvail || !e.sessionStorageAvail) then (1 : ℚ) else 0)
  let tc6 := tc5 + 1
  -- integer device pixel ratio (half weight)
  let sc8 := sc7 + (if suspiciousPatterns.perfectConsistency &&
      (!(decide (e.devicePixelRatio = 0)) &&
        decide (e.devicePixelRatio.den = 1)) then (1 : ℚ)/2 else 0)
  let tc7 := tc6 + 1
  -- plugins all disabled
  let sc9 := sc8 + (if suspiciousPatterns.allPluginsDisabled &&
      (match e.plugins with
       | none => false
       | some l => decide (l.length = 0)) then (1 : ℚ) else 0)
  let tc8 := tc7 + 1
  decide (sc9 / (tc8 : ℚ) > 2/5)

/-- Restatement of the specification's description of the score: a sum of
indicator points (the pixel-ratio check weighing `1/2`), to be compared
with the source's running counter. -/
def suspiciousScore (e : SuspEnv) : ℚ :=
  (if (match e.fonts with
       | none => true
       | some l => decide (l.length < 2)) then (1 : ℚ) else 0) +
  (if decide (e.canvasHash = "canvas_not_supported") then (1 : ℚ) else 0) +
  (if e.webglVendor.isNone && e.webglRenderer.isNone then (1 : ℚ) else 0) +
  (if jsIncludes (jsToLower e.userAgent) "chrome" && !e.chromeDefined then
     (1 : ℚ) else 0) +
  (if jsIncludes (jsToLower e.userAgent) "firefox" &&
      !e.installTriggerDefined then (1 : ℚ) else 0) +
  (if (match e.languages with
       | none => true
       | some l => decide (l.length = 0)) then (1 : ℚ) else 0) +
  (if !e.localStorageAvail || !e.sessionStorageAvail then (1 : ℚ) else 0) +
  (if !(decide (e.devicePixelRatio = 0)) &&
      decide (e.devicePixelRatio.den = 1) then (1 : ℚ)/2 else 0) +
  (if (match e.plugins with
       | none => false
       | some l => decide (l.length = 0)) then (1 : ℚ) else 0)

/-- One `{velocity, direction}` movement sample (source lines 505-512);
the JS doubles are modeled by exact rationals, which preserves the
(in)equality comparisons the analyzer performs. -/
structure MovementPattern where
  velocity : ℚ
  direction : ℚ
deriving DecidableEq

/-- The `interactionData` object (source lines 479-487) as read by
`analyzeInteractions`. -/
structure InteractionData where
  mouseMoves : Nat
  mouseClicks : Nat
  keyPresses : Nat
  touchEvents : Nat
  movementPatterns : List MovementPattern
  startTime : Nat
deriving DecidableEq

/-- The loop of source lines 554-567: walking the samples with
`prevVelocity`/`prevDirection` starting at `null`, adding one point for an
exactly repeated velocity and one point for an exactly repeated
direction (a pair repeating both adds two). -/
def countUnnatural : Option ℚ → Option ℚ → List MovementPattern → Nat
  | _, _, [] => 0
  | pv, pd, p :: rest =>
    (if pv = some p.velocity then 1 else 0) +
      ((if pd = some p.direction then 1 else 0) +
        countUnnatural (some p.velocity) (some p.direction) rest)

/-- Total interaction count (source lines 536-540). -/
def totalInteractions (d : InteractionData) : Nat :=
  d.mouseMoves + d.mouseClicks + d.keyPresses + d.touchEvents

/-- Model of `analyzeInteractions` (source lines 534-576): `false` when more than
2000ms elapsed with fewer than 3 interactions; otherwise, with more than
5 movement samples, `false` when `unnaturalMovements / sampleCount`
exceeds `0.3`; otherwise `true`. -/
def analyzeInteractions (d : InteractionData) (now : Nat) : Bool :=
  let timeDiff := now - d.startTime
  if timeDiff > 2000 ∧ totalInteractions d < 3 then false
  else if d.movementPatterns.length > 5 then
    let unnatural := countUnnatural none none d.movementPatterns
    if ((unnatural : ℚ) / (d.movementPatterns.length : ℚ) > 3/10) then false
    else true
  else true

/-- Restatement of the specification's uniformity metric: the number of
consecutive sample pairs whose velocities are exactly equal or whose
directions are exactly equal (each qualifying pair counted once). -/
def specRepeatPairs : List MovementPattern → Nat
  | [] => 0
  | [_] => 0
  | p :: q :: rest =>
    (if q.velocity = p.velocity ∨ q.direction = p.direction then 1 else 0) +
      specRepeatPairs (q :: rest)

/-- Outcome of the WebGL probe in `getWebGLInfo` (source lines 264-286):
the whole probe may throw, the context may be unavailable, the debug-info
extension may be missing, or vendor/renderer strings are returned. -/
inductive WebGLProbe where
  | throws : WebGLProbe
  | noContext : WebGLProbe
  | noDebugInfo : WebGLProbe
  | info : String → String → WebGLProbe
deriving DecidableEq

/-- Environment for a fingerprint-collection run: raw values returned by
the individual probes.  `canvasProbe` is the canvas draw-and-hash
pipeline of `generateCanvasFingerprint` (it throws when canvas is
blocked); `bodyPresent` models `document.body`, which the font-detection
and ad-blocker probes dereference without any `try/catch`. -/
structure FPEnv where
  userAgent : String
  language : String
  languages : Option (List String)
  platform : String
  cores : Nat
  deviceMemory : Nat
  screenRes : String
  colorDepth : Nat
  pixelRatio : ℚ
  timezone : Int
  timezoneStr : String
  touchPoints : Nat
  cookiesEnabled : Bool
  localStorageAvail : Bool
  sessionStorageAvail : Bool
  indexedDBAvail : Bool
  doNotTrack : Option String
  audioCodecs : List (String × String)
  videoCodecs : List (String × String)
  canvasProbe : Except Unit String
  webgl : WebGLProbe
  bodyPresent : Bool
  fontMeasure : String → String → Nat × Nat
  fontMeasureBase : String → Nat × Nat
  batteryProbe : Except Unit (Option (ℚ × Bool × ℚ × ℚ))
  connectionProbe : Except Unit (Option (String × String))
  plugins : List String
  adBlocked : Bool
  perfMath : ℚ
  perfSort : ℚ

/-- The fields of the object built by `collectFingerprintComponents`
(source lines 59-113). -/
structure FingerprintComponents where
  userAgent : String
  language : String
  languages : Option (List String)
  platform : String
  cores : Nat
  deviceMemory : Nat
  screenRes : String
  colorDepth : Nat
  pixelRatio : ℚ
  timezone : Int
  timezoneStr : String
  touchPoints : Nat
  cookiesEnabled : Bool
  localStorage : Bool
  sessionStorage : Bool
  indexedDB : Bool
  doNotTrack : Option String
  adBlocker : Bool
  audioCodecs : List (String × String)
  videoCodecs : List (String × String)
  webglVendor : Option String
  webglRenderer : Option String
  canvasHash : String
  fonts : List String
  batteryInfo : Option (ℚ × Bool × ℚ × ℚ)
  connectionType : Option (String × String)
  plugins : List String
  perfMath : ℚ
  perfSort : ℚ

/-- Model of `generateCanvasFingerprint` (source lines 135-195): the whole body is
wrapped in `try/catch`; any failure yields the sentinel string
`"canvas_not_supported"`. -/
def generateCanvasFingerprint (e : FPEnv) : String :=
  match e.canvasProbe with
  | .ok h => h
  | .error _ => "canvas_not_supported"

/-- Model of `getWebGLInfo` (source lines 264-286): `try/catch` around the probe;
a missing context, a missing debug-info extension, and a thrown
exception all yield `{vendor: null, renderer: null}`. -/
def getWebGLInfo (e : FPEnv) : Option String × Option String :=
  match e.webgl with
  | .throws => (none, none)
  | .noContext => (none, none)
  | .noDebugInfo => (none, none)
  | .info v r => (some v, some r)

/-- Model of `detectFonts` (source lines 201-257): for each candidate font,
detected iff its measured box differs from the baseline box for every
baseline family.  The body contains no `try/catch`: when `document.body`
is absent the `appendChild` calls throw and the exception propagates. -/
def detectFonts (e : FPEnv) : Except Unit (List String) :=
  if e.bodyPresent then
    .ok (["Arial", "Arial Black", "Arial Narrow", "Calibri", "Cambria",
          "Cambria Math", "Comic Sans MS", "Consolas", "Courier",
          "Courier New", "Georgia", "Helvetica", "Impact", "Lucida Console",
          "Lucida Sans Unicode", "Microsoft Sans Serif", "Palatino Linotype",
          "Tahoma", "Times", "Times New Roman", "Trebuchet MS", "Verdana",
          "Webdings"].filter (fun font =>
            ["monospace", "sans-serif", "serif"].all (fun base =>
              e.fontMeasure font base ≠ e.fontMeasureBase base)))
  else .error ()

/-- Model of `getBatteryInfo` (source lines 293-309): wrapped in `try/catch`;
failure yields `null`. -/
def getBatteryInfo (e : FPEnv) : Option (ℚ × Bool × ℚ × ℚ) :=
  match e.batteryProbe with
  | .ok v => v
  | .error _ => none

/-- Model of `getConnectionType` (source lines 315-336): wrapped in `try/catch`;
failure yields `null`. -/
def getConnectionType (e : FPEnv) : Option (String × String) :=
  match e.connectionProbe with
  | .ok v => v
  | .error _ => none

/-- Model of `detectAdBlocker` (source lines 414-437): appends a probe element to
`document.body` with no `try/catch`; when the body is absent the promise
rejects and the `await` rethrows; otherwise the collapsed state of the
element is reported. -/
def detectAdBlocker (e : FPEnv) : Except Unit Bool :=
  if e.bodyPresent then .ok e.adBlocked else .error ()

/-- Model of `collectFingerprintComponents` (source lines 58-128): assembles the
component record; `detectFonts` (in the object literal) and
`detectAdBlocker` (after the literal) are the only probes whose
exceptions are not caught, so their failures propagate; the WebGL fields
are filled in afterwards inside a `try` (the probe itself never
throws). -/
def collectFingerprintComponents (e : FPEnv) :
    Except Unit FingerprintComponents :=
  match detectFonts e with
  | .error u => .error u
  | .ok fonts =>
    let base : FingerprintComponents :=
      { userAgent := e.userAgent
        language := e.language
        languages := e.languages
        platform := e.platform
        cores := e.cores
        deviceMemory := e.deviceMemory
        screenRes := e.screenRes
        colorDepth := e.colorDepth
        pixelRatio := e.pixelRatio
        timezone := e.timezone
        timezoneStr := e.timezoneStr
        touchPoints := e.touchPoints
        cookiesEnabled := e.cookiesEnabled
        localStorage := e.localStorageAvail
        sessionStorage := e.sessionStorageAvail
        indexedDB := e.indexedDBAvail
        doNotTrack := e.doNotTrack
        adBlocker := false
        audioCodecs := e.audioCodecs
        videoCodecs := e.videoCodecs
        webglVendor := none
        webglRenderer := none
        canvasHash := generateCanvasFingerprint e
        fonts := fonts
        batteryInfo := getBatteryInfo e
        connectionType := getConnectionType e
        plugins := e.plugins
        perfMath := e.perfMath
        perfSort := e.perfSort }
    let wg := getWebGLInfo e
    let withGL : FingerprintComponents :=
      { base with webglVendor := wg.1, webglRenderer := wg.2 }
    match detectAdBlocker e with
    | .error u => .error u
    | .ok ab => .ok { withGL with adBlocker := ab }

theorem saveFA_failedAttempts (st : BLState) :
    (saveFailedAttempts st).failedAttempts = st.failedAttempts := by
  unfold saveFailedAttempts
  cases st.store_attempts <;> rfl

theorem saveFA_store_blacklist (st : BLState) :
    (saveFailedAttempts st).store_blacklist = st.store_blacklist := by
  unfold saveFailedAttempts
  cases st.store_attempts <;> rfl

theorem addBL_failedAttempts (st : BLState) (cid : String)
    (rs : List AttemptReason) (now : Nat) :
    (addToBlacklist st cid rs now).failedAttempts = st.failedAttempts := by
  unfold addToBlacklist
  cases st.store_blacklist <;> rfl

/-- A `recordFailedAttempt` call on a client with no existing record (and
the threshold above 1) installs a fresh count-1 record; only the saved
attempt slot changes besides the in-memory map. -/
theorem recordFA_absent (st : BLState) (cid reason : String) (now : Nat)
    (habs : getKey st.failedAttempts cid = none) :
    recordFailedAttempt st cid reason now =
      saveFailedAttempts
        { st with failedAttempts :=
            setKey st.failedAttempts cid ⟨1, [⟨reason, now⟩], now⟩ } := by
  unfold recordFailedAttempt
  rw [habs]
  norm_num [thresholds]

/-- A `recordFailedAttempt` call on an existing record that stays below
the threshold increments it in place (state given by its four fields:
runtime key list, attempt map, blacklist slot, attempt slot). -/
theorem recordFA_step (st : BLState) (cid reason : String) (now : Nat)
    (r : FailedAttemptRecord) (hr : getKey st.failedAttempts cid = some r)
    (hc : r.count + 1 < thresholds.maxFailedAttempts) :
    recordFailedAttempt st cid reason now =
      saveFailedAttempts
        ⟨st.blacklistedIPs,
         setKey st.failedAttempts cid
           ⟨r.count + 1, r.reasons ++ [⟨reason, now⟩], r.firstAttempt⟩,
         st.store_blacklist, st.store_attempts⟩ := by
  have hnot : ¬r.count + 1 ≥ thresholds.maxFailedAttempts := not_le.mpr hc
  unfold recordFailedAttempt
  rw [hr]
  simp [hnot]

/-- A `recordFailedAttempt` call that reaches the threshold escalates:
the updated reasons go to the blacklist and the in-memory record is
deleted before the map is saved. -/
theorem recordFA_escalate (st : BLState) (cid reason : String) (now : Nat)
    (r : FailedAttemptRecord) (hr : getKey st.failedAttempts cid = some r)
    (hc : thresholds.maxFailedAttempts ≤ r.count + 1) :
    recordFailedAttempt st cid reason now =
      saveFailedAttempts
        ⟨(addToBlacklist
            ⟨st.blacklistedIPs,
             setKey st.failedAttempts cid
               ⟨r.count + 1, r.reasons ++ [⟨reason, now⟩], r.firstAttempt⟩,
             st.store_blacklist, st.store_attempts⟩
            cid (r.reasons ++ [⟨reason, now⟩]) now).blacklistedIPs,
         eraseKey
           (addToBlacklist
             ⟨st.blacklistedIPs,
              setKey st.failedAttempts cid
                ⟨r.count + 1, r.reasons ++ [⟨reason, now⟩], r.firstAttempt⟩,
              st.store_blacklist, st.store_attempts⟩
             cid (r.reasons ++ [⟨reason, now⟩]) now).failedAttempts cid,
         (addToBlacklist
            ⟨st.blacklistedIPs,
             setKey st.failedAttempts cid
               ⟨r.count + 1, r.reasons ++ [⟨reason, now⟩], r.firstAttempt⟩,
             st.store_blacklist, st.store_attempts⟩
            cid (r.reasons ++ [⟨reason, now⟩]) now).store_blacklist,
         (addToBlacklist
            ⟨st.blacklistedIPs,
             setKey st.failedAttempts cid
               ⟨r.count + 1, r.reasons ++ [⟨reason, now⟩], r.firstAttempt⟩,
             st.store_blacklist, st.store_attempts⟩
            cid (r.reasons ++ [⟨reason, now⟩]) now).store_attempts⟩ := by
  have hge : r.count + 1 ≥ thresholds.maxFailedAttempts := hc
  unfold recordFailedAttempt
  rw [hr]
  simp [hge]

theorem addBL_store_val (st : BLState) (cid : String)
    (rs : List AttemptReason) (now : Nat)
    (m : List (String × BlacklistEntry))
    (hbl : st.store_blacklist = Stored.val m) :
    (addToBlacklist st cid rs now).store_blacklist =
      Stored.val (setKey m cid
        ⟨now, now + thresholds.blacklistDuration * 1000, rs⟩) := by
  unfold addToBlacklist
  rw [hbl]

/-- C1: starting from an absent record, two `recordFailedAttempt` calls
leave a count-2 record; the third call deletes the record and stores a
blacklist entry with 3 reasons expiring `blacklistDuration * 1000`
milliseconds after it was added. -/
theorem C1_threshold_escalation (st : BLState) (cid r1 r2 r3 : String)
    (t1 t2 t3 : Nat) (m : List (String × BlacklistEntry))
    (habs : getKey st.failedAttempts cid = none)
    (hbl : st.store_blacklist = Stored.val m) :
    getKey (recordFailedAttempt (recordFailedAttempt st cid r1 t1) cid r2
        t2).failedAttempts cid = some ⟨2, [⟨r1, t1⟩, ⟨r2, t2⟩], t1⟩ ∧
    getKey (recordFailedAttempt (recordFailedAttempt (recordFailedAttempt
        st cid r1 t1) cid r2 t2) cid r3 t3).failedAttempts cid = none ∧
    ∃ e : BlacklistEntry,
      lookupStored (recordFailedAttempt (recordFailedAttempt
          (recordFailedAttempt st cid r1 t1) cid r2 t2) cid r3
          t3).store_blacklist cid = some e ∧
      e.reasons.length = thresholds.maxFailedAttempts ∧
      e.expires - e.added = thresholds.blacklistDuration * 1000 := by
  have hA := recordFA_absent st cid r1 t1 habs
  have hA_fa : (recordFailedAttempt st cid r1 t1).failedAttempts =
      setKey st.failedAttempts cid ⟨1, [⟨r1, t1⟩], t1⟩ := by
    rw [hA, saveFA_failedAttempts]
  have hA_bl : (recordFailedAttempt st cid r1 t1).store_blacklist =
      Stored.val m := by
    rw [hA, saveFA_store_blacklist, hbl]
  have hA_get :
      getKey (recordFailedAttempt st cid r1 t1).failedAttempts cid =
        some ⟨1, [⟨r1, t1⟩], t1⟩ := by
    rw [hA_fa, getKey_setKey_self]
  have hlt1 : (⟨1, [⟨r1, t1⟩], t1⟩ : FailedAttemptRecord).count + 1 <
      thresholds.maxFailedAttempts := by norm_num [thresholds]
  have hB := recordFA_step (recordFailedAttempt st cid r1 t1) cid r2 t2
    ⟨1, [⟨r1, t1⟩], t1⟩ hA_get hlt1
  have hB_fa : (recordFailedAttempt (recordFailedAttempt st cid r1 t1)
      cid r2 t2).failedAttempts =
        setKey (recordFailedAttempt st cid r1 t1).failedAttempts cid
          ⟨2, [⟨r1, t1⟩, ⟨r2, t2⟩], t1⟩ := by
    rw [hB, saveFA_failedAttempts]
    rfl
  have hB_bl : (recordFailedAttempt (recordFailedAttempt st cid r1 t1)
      cid r2 t2).store_blacklist = Stored.val m := by
    rw [hB, saveFA_store_blacklist]
    exact hA_bl
  have hB_get : getKey (recordFailedAttempt (recordFailedAttempt st cid
      r1 t1) cid r2 t2).failedAttempts cid =
        some ⟨2, [⟨r1, t1⟩, ⟨r2, t2⟩], t1⟩ := by
    rw [hB_fa, getKey_setKey_self]
  have hge2 : thresholds.maxFailedAttempts ≤
      (⟨2, [⟨r1, t1⟩, ⟨r2, t2⟩], t1⟩ : FailedAttemptRecord).count + 1 := by
    norm_num [thresholds]
  have hC := recordFA_escalate
    (recordFailedAttempt (recordFailedAttempt st cid r1 t1) cid r2 t2)
    cid r3 t3 ⟨2, [⟨r1, t1⟩, ⟨r2, t2⟩], t1⟩ hB_get hge2
  have hC_fa : (recordFailedAttempt (recordFailedAttempt
      (recordFailedAttempt st cid r1 t1) cid r2 t2) cid r3
        t3).failedAttempts =
      eraseKey (addToBlacklist
        ⟨(recordFailedAttempt (recordFailedAttempt st cid r1 t1) cid r2
            t2).blacklistedIPs,
         setKey (recordFailedAttempt (recordFailedAttempt st cid r1 t1)
            cid r2 t2).failedAttempts cid
           ⟨3, [⟨r1, t1⟩, ⟨r2, t2⟩, ⟨r3, t3⟩], t1⟩,
         (recordFailedAttempt (recordFailedAttempt st cid r1 t1) cid r2
            t2).store_blacklist,
         (recordFailedAttempt (recordFailedAttempt st cid r1 t1) cid r2
            t2).store_attempts⟩
        cid [⟨r1, t1⟩, ⟨r2, t2⟩, ⟨r3, t3⟩] t3).failedAttempts cid := by
    rw [hC, saveFA_failedAttempts]
    rfl
  have hC_bl : (recordFailedAttempt (recordFailedAttempt
      (recordFailedAttempt st cid r1 t1) cid r2 t2) cid r3
        t3).store_blacklist =
      (addToBlacklist
        ⟨(recordFailedAttempt (recordFailedAttempt st cid r1 t1) cid r2
            t2).blacklistedIPs,
         setKey (recordFailedAttempt (recordFailedAttempt st cid r1 t1)
            cid r2 t2).failedAttempts cid
           ⟨3, [⟨r1, t1⟩, ⟨r2, t2⟩, ⟨r3, t3⟩], t1⟩,
         (recordFailedAttempt (recordFailedAttempt st cid r1 t1) cid r2
            t2).store_blacklist,
         (recordFailedAttempt (recordFailedAttempt st cid r1 t1) cid r2
            t2).store_attempts⟩
        cid [⟨r1, t1⟩, ⟨r2, t2⟩, ⟨r3, t3⟩] t3).store_blacklist := by
    rw [hC, saveFA_store_blacklist]
    rfl
  refine ⟨hB_get, ?_, ?_⟩
  · rw [hC_fa]
    rw [addBL_failedAttempts]
    exact getKey_eraseKey_self _ _
  · refine ⟨⟨t3, t3 + thresholds.blacklistDuration * 1000,
      [⟨r1, t1⟩, ⟨r2, t2⟩, ⟨r3, t3⟩]⟩, ?_, rfl, ?_⟩
    · rw [hC_bl]
      have hXbl : (⟨(recordFailedAttempt (recordFailedAttempt st cid r1
            t1) cid r2 t2).blacklistedIPs,
          setKey (recordFailedAttempt (recordFailedAttempt st cid r1 t1)
            cid r2 t2).failedAttempts cid
            ⟨3, [⟨r1, t1⟩, ⟨r2, t2⟩, ⟨r3, t3⟩], t1⟩,
          (recordFailedAttempt (recordFailedAttempt st cid r1 t1) cid r2
            t2).store_blacklist,
          (recordFailedAttempt (recordFailedAttempt st cid r1 t1) cid r2
            t2).store_attempts⟩ : BLState).store_blacklist =
          Stored.val m := hB_bl
      rw [addBL_store_val
        ⟨(recordFailedAttempt (recordFailedAttempt st cid r1
            t1) cid r2 t2).blacklistedIPs,
          setKey (recordFailedAttempt (recordFailedAttempt st cid r1 t1)
            cid r2 t2).failedAttempts cid
            ⟨3, [⟨r1, t1⟩, ⟨r2, t2⟩, ⟨r3, t3⟩], t1⟩,
          (recordFailedAttempt (recordFailedAttempt st cid r1 t1) cid r2
            t2).store_blacklist,
          (recordFailedAttempt (recordFailedAttempt st cid r1 t1) cid r2
            t2).store_attempts⟩
        cid [⟨r1, t1⟩, ⟨r2, t2⟩, ⟨r3, t3⟩] t3 m hXbl]
      simp [lookupStored, getKey_setKey_self]
    · show t3 + thresholds.blacklistDuration * 1000 - t3 =
        thresholds.blacklistDuration * 1000
      omega

/-- Witness for C1 at a concrete state and concrete inputs. -/
theorem C1_threshold_escalation_witness :
    getKey (BLState.mk [] [] (Stored.val []) Stored.absent).failedAttempts
      "c" = none ∧
    (getKey (recordFailedAttempt (recordFailedAttempt (BLState.mk [] []
        (Stored.val []) Stored.absent) "c" "a" 5) "c" "b" 6).failedAttempts
        "c" = some ⟨2, [⟨"a", 5⟩, ⟨"b", 6⟩], 5⟩ ∧
      getKey (recordFailedAttempt (recordFailedAttempt (recordFailedAttempt
          (BLState.mk [] [] (Stored.val []) Stored.absent) "c" "a" 5) "c"
          "b" 6) "c" "d" 7).failedAttempts "c" = none ∧
      ∃ e : BlacklistEntry,
        lookupStored (recordFailedAttempt (recordFailedAttempt
            (recordFailedAttempt (BLState.mk [] [] (Stored.val [])
            Stored.absent) "c" "a" 5) "c" "b" 6) "c" "d"
            7).store_blacklist "c" = some e ∧
        e.reasons.length = thresholds.maxFailedAttempts ∧
        e.expires - e.added = thresholds.blacklistDuration * 1000) :=
  ⟨rfl, C1_threshold_escalation (BLState.mk [] [] (Stored.val [])
    Stored.absent) "c" "a" "b" "d" 5 6 7 [] rfl rfl⟩

/-- C2 (code bug): `init` never calls `loadFailedAttempts`, so a
count-2 record persisted by a previous page load is invisible after a
fresh page load; the next `recordFailedAttempt` restarts at count 1 and
does not escalate, contradicting cross-page-load accumulation. -/
theorem C2_persisted_attempts_invisible :
    (pageLoad Stored.absent
        (Stored.val [("c", ⟨2, [⟨"x", 0⟩, ⟨"y", 1⟩], 0⟩)])
        100).failedAttempts = [] ∧
    getKey (recordFailedAttempt (pageLoad Stored.absent
        (Stored.val [("c", ⟨2, [⟨"x", 0⟩, ⟨"y", 1⟩], 0⟩)]) 100) "c" "z"
        100).failedAttempts "c" = some ⟨1, [⟨"z", 100⟩], 100⟩ ∧
    lookupStored (recordFailedAttempt (pageLoad Stored.absent
        (Stored.val [("c", ⟨2, [⟨"x", 0⟩, ⟨"y", 1⟩], 0⟩)]) 100) "c" "z"
        100).store_blacklist "c" = none := by
  decide

theorem getKey_eq_none_of_not_mem {α : Type} (m : List (String × α))
    (k : String) (h : k ∉ m.map Prod.fst) : getKey m k = none := by
  induction m with
  | nil => rfl
  | cons p t ih =>
    obtain ⟨k', v'⟩ := p
    simp only [List.map_cons, List.mem_cons] at h
    push_neg at h
    simp [getKey, Ne.symm h.1, ih h.2]

/-- If a key's (unique) entry is dropped by a `filter`, the key is gone
from the filtered map. -/
theorem getKey_filter_drop {α : Type} (q : String × α → Bool)
    (m : List (String × α)) (k : String) (v : α)
    (hnd : (m.map Prod.fst).Nodup)
    (h : getKey m k = some v) (hq : q (k, v) = false) :
    getKey (m.filter q) k = none := by
  induction m with
  | nil => simp [getKey] at h
  | cons p t ih =>
    obtain ⟨k', v'⟩ := p
    simp only [List.map_cons, List.nodup_cons] at hnd
    by_cases hk : k' = k
    · subst hk
      simp [getKey] at h
      subst h
      rw [List.filter_cons, hq]
      simp only [Bool.false_eq_true, if_false]
      apply getKey_eq_none_of_not_mem
      intro hmem
      apply hnd.1
      obtain ⟨p, hp, hpk⟩ := List.mem_map.mp hmem
      exact List.mem_map.mpr ⟨p, List.mem_of_mem_filter hp, hpk⟩
    · simp only [getKey, if_neg hk] at h
      rw [List.filter_cons]
      by_cases hqp : q (k', v')
      · rw [if_pos hqp]
        simp [getKey, hk]
        exact ih hnd.2 h
      · rw [if_neg hqp]
        exact ih hnd.2 h

/-- C3 counterexample: an entry with `expires = now` satisfies
`expires <= now`, is already excluded from `isClientBlacklisted`, yet
`cleanupExpiredEntries` retains it because the source removal test is
the strict `expires < now`. -/
theorem C3_boundary_counterexample :
    (⟨0, 5, []⟩ : BlacklistEntry).expires ≤ 5 ∧
    isClientBlacklisted (BLState.mk [] [] (Stored.val [("c", ⟨0, 5, []⟩)])
      Stored.absent) "c" 5 = false ∧
    lookupStored (cleanupExpiredEntries (BLState.mk [] []
      (Stored.val [("c", ⟨0, 5, []⟩)]) Stored.absent) 5).store_blacklist
      "c" = some ⟨0, 5, []⟩ := by
  decide

/-- C3 amended: with pairwise-distinct stored keys, an entry with
`expires ≤ now` is excluded from `isClientBlacklisted`; it is removed
from persisted storage by `cleanupExpiredEntries` when additionally
`expires < now` holds strictly (the `expires = now` boundary entry is
retained by cleanup). -/
theorem C3_expiry_amended (st : BLState) (cid : String) (now : Nat)
    (m : List (String × BlacklistEntry)) (e : BlacklistEntry)
    (hbl : st.store_blacklist = Stored.val m)
    (hnd : (m.map Prod.fst).Nodup)
    (hget : getKey m cid = some e) (hexp : e.expires ≤ now) :
    isClientBlacklisted st cid now = false ∧
    (e.expires < now →
      lookupStored (cleanupExpiredEntries st now).store_blacklist cid =
        none) := by
  constructor
  · simp only [isClientBlacklisted, hbl, hget]
    simp [decide_eq_false_iff_not]
    omega
  · intro hlt
    have hdrop : getKey
        (m.filter (fun p => !(decide (p.2.expires < now)))) cid = none := by
      apply getKey_filter_drop _ m cid e hnd hget
      simp [hlt]
    have hne : m.filter (fun p => !(decide (p.2.expires < now))) ≠ m := by
      intro heq
      rw [heq, hget] at hdrop
      exact Option.noConfusion hdrop
    simp only [cleanupExpiredEntries, hbl]
    rw [if_neg hne]
    simp only [lookupStored]
    exact hdrop

/-- Witness for the amended C3 at a concrete strictly-expired entry. -/
theorem C3_expiry_amended_witness :
    isClientBlacklisted (BLState.mk [] [] (Stored.val [("c", ⟨0, 3, []⟩)])
      Stored.absent) "c" 5 = false ∧
    lookupStored (cleanupExpiredEntries (BLState.mk [] []
      (Stored.val [("c", ⟨0, 3, []⟩)]) Stored.absent) 5).store_blacklist
      "c" = none :=
  ⟨(C3_expiry_amended (BLState.mk [] [] (Stored.val [("c", ⟨0, 3, []⟩)])
      Stored.absent) "c" 5 [("c", ⟨0, 3, []⟩)] ⟨0, 3, []⟩ rfl (by decide)
      rfl (by decide)).1,
   (C3_expiry_amended (BLState.mk [] [] (Stored.val [("c", ⟨0, 3, []⟩)])
      Stored.absent) "c" 5 [("c", ⟨0, 3, []⟩)] ⟨0, 3, []⟩ rfl (by decide)
      rfl (by decide)).2 (by decide)⟩

/-- C4: a user agent containing a configured bot signature (matched on
the lowercased agent string, hence case-insensitively, the configured
signatures being lowercase) is blocked as `known_bot`, with no condition
on the security-tool list or the blacklist: the bot check runs first. -/
theorem C4_known_bot_priority (st : BLState) (ua cid : String) (now : Nat)
    (sig : String) (hmem : sig ∈ knownBotSignatures)
    (hsub : sig.data <:+: (jsToLower ua).data) :
    (checkBlacklist st ua cid now).1 = ⟨true, some "known_bot"⟩ := by
  unfold checkBlacklist
  have hany : knownBotSignatures.any
      (fun s => jsIncludes (jsToLower ua) s) = true :=
    List.any_eq_true.mpr ⟨sig, hmem, by simp [jsIncludes, hsub]⟩
  simp [hany]

/-- Witness for C4: a mixed-case `cURL` agent hits the `"curl"`
signature. -/
theorem C4_known_bot_priority_witness :
    "curl" ∈ knownBotSignatures ∧
    "curl".data <:+: (jsToLower "Mozilla/5.0 cURL/8.0").data ∧
    (checkBlacklist (BLState.mk [] [] Stored.absent Stored.absent)
      "Mozilla/5.0 cURL/8.0" "c" 0).1 = ⟨true, some "known_bot"⟩ :=
  ⟨by decide, by decide,
   C4_known_bot_priority (BLState.mk [] [] Stored.absent Stored.absent)
     "Mozilla/5.0 cURL/8.0" "c" 0 "curl" (by decide) (by decide)⟩

/-- C5 counterexample: a client with an active blacklist entry whose
user agent contains the `"curl"` bot signature is blocked with reason
`known_bot`, not `blacklisted`, refuting "reason = blacklisted
regardless of fingerprint content". -/
theorem C5_blacklisted_counterexample :
    isClientBlacklisted (BLState.mk [] [] (Stored.val [("c", ⟨0, 9, []⟩)])
      Stored.absent) "c" 1 = true ∧
    (checkBlacklist (BLState.mk [] [] (Stored.val [("c", ⟨0, 9, []⟩)])
      Stored.absent) "curl" "c" 1).1.reason ≠ some "blacklisted" := by
  decide

/-- C5 amended: a client with an active (unexpired) blacklist entry is
blocked with reason `"blacklisted"` provided its user agent matches no
known-bot signature and no security tool; with a matching user agent the
call still blocks, but with the matching list's own reason. -/
theorem C5_blacklisted_amended (st : BLState) (ua cid : String)
    (now : Nat) (hact : isClientBlacklisted st cid now = true)
    (hbot : ∀ sig ∈ knownBotSignatures, ¬ sig.data <:+: (jsToLower ua).data)
    (htool : ∀ t ∈ securityTools, ¬ t.data <:+: (jsToLower ua).data) :
    (checkBlacklist st ua cid now).1 = ⟨true, some "blacklisted"⟩ := by
  unfold checkBlacklist
  have h1 : knownBotSignatures.any
      (fun s => jsIncludes (jsToLower ua) s) = false := by
    rw [List.any_eq_false]
    intro s hs
    simp only [jsIncludes, decide_eq_true_eq]
    exact hbot s hs
  have h2 : securityTools.any
      (fun s => jsIncludes (jsToLower ua) s) = false := by
    rw [List.any_eq_false]
    intro s hs
    simp only [jsIncludes, decide_eq_true_eq]
    exact htool s hs
  simp [h1, h2, hact]

/-- Witness for the amended C5: agent `"aaa"` matches nothing and the
blacklisted client is reported as such. -/
theorem C5_blacklisted_amended_witness :
    isClientBlacklisted (BLState.mk [] [] (Stored.val [("c", ⟨0, 9, []⟩)])
      Stored.absent) "c" 1 = true ∧
    (checkBlacklist (BLState.mk [] [] (Stored.val [("c", ⟨0, 9, []⟩)])
      Stored.absent) "aaa" "c" 1).1 = ⟨true, some "blacklisted"⟩ :=
  ⟨by decide,
   C5_blacklisted_amended (BLState.mk [] [] (Stored.val [("c", ⟨0, 9, []⟩)])
     Stored.absent) "aaa" "c" 1 (by decide) (by decide) (by decide)⟩

/-- C10: `checkBlacklist` performs exactly one `recordFailedAttempt`
call (for the fixed reason string of the branch) when it blocks as
`known_bot` or `security_tool`, and leaves the failed-attempt map
unchanged when it returns unblocked or blocks as `blacklisted`. -/
theorem C10_checkBlacklist_effects (st : BLState) (ua cid : String)
    (now : Nat) :
    ((checkBlacklist st ua cid now).1.reason = some "known_bot" →
      (checkBlacklist st ua cid now).2 =
        recordFailedAttempt st cid "known_bot_useragent" now) ∧
    ((checkBlacklist st ua cid now).1.reason = some "security_tool" →
      (checkBlacklist st ua cid now).2 =
        recordFailedAttempt st cid "security_tool_detected" now) ∧
    (((checkBlacklist st ua cid now).1.blocked = false ∨
        (checkBlacklist st ua cid now).1.reason = some "blacklisted") →
      (checkBlacklist st ua cid now).2.failedAttempts =
        st.failedAttempts) := by
  unfold checkBlacklist
  by_cases h1 : knownBotSignatures.any
      (fun s => jsIncludes (jsToLower ua) s) = true
  · simp [h1]
  · by_cases h2 : securityTools.any
        (fun s => jsIncludes (jsToLower ua) s) = true
    · simp [h1, h2]
    · by_cases h3 : isClientBlacklisted st cid now = true
      · simp [h1, h2, h3]
      · simp [h1, h2, h3]

/-- Witness for C10: a `"curl"` agent records one failed attempt. -/
theorem C10_checkBlacklist_effects_witness :
    (checkBlacklist (BLState.mk [] [] Stored.absent Stored.absent) "curl"
      "c" 0).2 =
      recordFailedAttempt (BLState.mk [] [] Stored.absent Stored.absent)
        "c" "known_bot_useragent" 0 :=
  (C10_checkBlacklist_effects (BLState.mk [] [] Stored.absent
    Stored.absent) "curl" "c" 0).1 (by decide)

/-- C8: when the persisted-store read throws (`unavailable`) or yields
malformed JSON (`corrupt`), `isClientBlacklisted` returns `false` and
`loadBlacklist` produces the empty key list; no exception escapes. -/
theorem C8_storage_failure_degrades (st : BLState) (cid : String)
    (now : Nat)
    (h : st.store_blacklist = Stored.unavailable ∨
         st.store_blacklist = Stored.corrupt) :
    isClientBlacklisted st cid now = false ∧
    (loadBlacklist st).blacklistedIPs = [] := by
  rcases h with h | h <;> simp [isClientBlacklisted, loadBlacklist, h]

/-- Witness for C8 at a corrupt blacklist slot. -/
theorem C8_storage_failure_degrades_witness :
    isClientBlacklisted (BLState.mk [] [] Stored.corrupt Stored.absent)
      "c" 0 = false ∧
    (loadBlacklist (BLState.mk [] [] Stored.corrupt
      Stored.absent)).blacklistedIPs = [] :=
  C8_storage_failure_degrades
    (BLState.mk [] [] Stored.corrupt Stored.absent) "c" 0 (Or.inr rfl)

/-- An environment triggering exactly the four unit-weight checks
noFonts, noCanvas, noWebGL and spoofedLanguages (pixel ratio 3/2, so the
half-weight check stays silent). -/
def suspFourEnv : SuspEnv :=
  { fonts := none, canvasHash := "canvas_not_supported",
    webglVendor := none, webglRenderer := none, userAgent := "safari",
    chromeDefined := true, installTriggerDefined := true,
    languages := none, localStorageAvail := true,
    sessionStorageAvail := true, devicePixelRatio := 0,
    plugins := some ["p"] }

/-- As `suspFourEnv` but with a sensible language list: exactly three
unit-weight checks trigger. -/
def suspThreeEnv : SuspEnv :=
  { fonts := none, canvasHash := "canvas_not_supported",
    webglVendor := none, webglRenderer := none, userAgent := "safari",
    chromeDefined := true, installTriggerDefined := true,
    languages := some ["en"], localStorageAvail := true,
    sessionStorageAvail := true, devicePixelRatio := 0,
    plugins := some ["p"] }

/-- C6: `hasTooManySuspiciousPatterns` returns true exactly when the
accumulated score over the fixed 8-step denominator exceeds `0.4`; an
environment failing exactly 4 unit-weight checks (ratio `1/2`) is judged
suspicious, one failing exactly 3 (ratio `3/8`) is not. -/
theorem C6_suspicious_ratio :
    (∀ e : SuspEnv, hasTooManySuspiciousPatterns e =
      decide (suspiciousScore e / 8 > 2/5)) ∧
    (suspiciousScore suspFourEnv = 4 ∧
      hasTooManySuspiciousPatterns suspFourEnv = true) ∧
    (suspiciousScore suspThreeEnv = 3 ∧
      hasTooManySuspiciousPatterns suspThreeEnv = false) := by
  refine ⟨?_, ⟨?_, ?_⟩, ⟨?_, ?_⟩⟩
  · intro e
    simp only [hasTooManySuspiciousPatterns, suspiciousScore,
      suspiciousPatterns, Bool.true_and, zero_add]
    norm_num
  · simp +decide [suspiciousScore, suspFourEnv, jsIncludes, jsToLower]
    norm_num
  · simp +decide [hasTooManySuspiciousPatterns, suspFourEnv,
      suspiciousPatterns, jsIncludes, jsToLower]
    norm_num
  · simp +decide [suspiciousScore, suspThreeEnv, jsIncludes, jsToLower]
    norm_num
  · simp +decide [hasTooManySuspiciousPatterns, suspThreeEnv,
      suspiciousPatterns, jsIncludes, jsToLower]
    norm_num

/-- Branch characterization of `analyzeInteractions`: it returns false
exactly on timeout-with-few-interactions, or on more than 5 samples
whose separately-counted velocity/direction repeats exceed 30% of the
sample count. -/
theorem analyzeInteractions_false_iff (d : InteractionData) (now : Nat) :
    analyzeInteractions d now = false ↔
      ((now - d.startTime > 2000 ∧ totalInteractions d < 3) ∨
       (¬(now - d.startTime > 2000 ∧ totalInteractions d < 3) ∧
        d.movementPatterns.length > 5 ∧
        (countUnnatural none none d.movementPatterns : ℚ) /
          (d.movementPatterns.length : ℚ) > 3/10)) := by
  simp only [analyzeInteractions]
  split_ifs with h1 h2 h3
  · simp [h1]
  · simp [h1, h2, h3]
  · simp [h1, h2, h3]
  · simp [h1, h2]

/-- Ten movement samples with exactly two consecutive pairs repeating
velocity and direction simultaneously; all other pairs repeat
neither. -/
def tenSampleData : InteractionData :=
  { mouseMoves := 10, mouseClicks := 0, keyPresses := 0, touchEvents := 0,
    movementPatterns :=
      [⟨1, 1⟩, ⟨1, 1⟩, ⟨2, 2⟩, ⟨2, 2⟩, ⟨3, 3⟩, ⟨4, 4⟩, ⟨5, 5⟩, ⟨6, 6⟩,
       ⟨7, 7⟩, ⟨8, 8⟩],
    startTime := 0 }

/-- Six identical movement samples (the specification's uniformity
example). -/
def sixIdenticalData : InteractionData :=
  { mouseMoves := 6, mouseClicks := 0, keyPresses := 0, touchEvents := 0,
    movementPatterns := [⟨1, 1⟩, ⟨1, 1⟩, ⟨1, 1⟩, ⟨1, 1⟩, ⟨1, 1⟩, ⟨1, 1⟩],
    startTime := 0 }

/-- C7 counterexample: on `tenSampleData` only 2 of the 9 consecutive
pairs repeat velocity or direction — a fraction of 2/9 (or 2/10 over the
sample count), below the claimed 30% failure bound — yet
`analyzeInteractions` returns false, because the code adds a point for
the velocity repeat and another for the direction repeat of the same
pair (4 points over 10 samples > 0.3). -/
theorem C7_uniformity_counterexample :
    specRepeatPairs tenSampleData.movementPatterns = 2 ∧
    ¬((specRepeatPairs tenSampleData.movementPatterns : ℚ) / 9 > 3/10) ∧
    ¬((specRepeatPairs tenSampleData.movementPatterns : ℚ) / 10 > 3/10) ∧
    analyzeInteractions tenSampleData 1000 = false := by
  have hpairs : specRepeatPairs tenSampleData.movementPatterns = 2 := by
    decide
  have hcount :
      countUnnatural none none tenSampleData.movementPatterns = 4 := by
    decide
  have hlen : tenSampleData.movementPatterns.length = 10 := by decide
  refine ⟨hpairs, ?_, ?_, ?_⟩
  · rw [hpairs]
    norm_num
  · rw [hpairs]
    norm_num
  · rw [analyzeInteractions_false_iff]
    right
    refine ⟨by decide, by decide, ?_⟩
    rw [hcount, hlen]
    norm_num

/-- C7 amended: the timeout rule is as claimed; with more than 5
samples, the code counts velocity repeats and direction repeats of
consecutive pairs separately (a pair repeating both counts twice),
divides by the sample count, and fails when the quotient exceeds 0.3;
six identical samples yield 10 points over 6 samples and fail. -/
theorem C7_interaction_analysis :
    (∀ (d : InteractionData) (now : Nat),
      analyzeInteractions d now = false ↔
        ((now - d.startTime > 2000 ∧ totalInteractions d < 3) ∨
         (¬(now - d.startTime > 2000 ∧ totalInteractions d < 3) ∧
          d.movementPatterns.length > 5 ∧
          (countUnnatural none none d.movementPatterns : ℚ) /
            (d.movementPatterns.length : ℚ) > 3/10))) ∧
    countUnnatural none none sixIdenticalData.movementPatterns = 10 ∧
    analyzeInteractions sixIdenticalData 100 = false := by
  have h10 :
      countUnnatural none none sixIdenticalData.movementPatterns = 10 := by
    decide
  have hlen : sixIdenticalData.movementPatterns.length = 6 := by decide
  refine ⟨analyzeInteractions_false_iff, h10, ?_⟩
  rw [analyzeInteractions_false_iff]
  right
  refine ⟨by decide, by decide, ?_⟩
  rw [h10, hlen]
  norm_num

/-- A concrete collection environment: document body present, canvas
probe blocked, WebGL context unavailable, all plain reads benign. -/
def fpEnvBlockedProbes : FPEnv :=
  { userAgent := "ua", language := "en", languages := some ["en"],
    platform := "linux", cores := 4, deviceMemory := 8,
    screenRes := "800x600", colorDepth := 24, pixelRatio := 1,
    timezone := 0, timezoneStr := "UTC", touchPoints := 0,
    cookiesEnabled := true, localStorageAvail := true,
    sessionStorageAvail := true, indexedDBAvail := true,
    doNotTrack := none, audioCodecs := [], videoCodecs := [],
    canvasProbe := Except.error (), webgl := WebGLProbe.noContext,
    bodyPresent := true, fontMeasure := fun _ _ => (1, 1),
    fontMeasureBase := fun _ => (2, 2), batteryProbe := Except.ok none,
    connectionProbe := Except.ok none, plugins := [], adBlocked := false,
    perfMath := 1, perfSort := 1 }

/-- C9 counterexample: with no document body, every probe value benign,
`collectFingerprintComponents` still fails — the unguarded
`detectFonts` DOM access propagates instead of yielding a sentinel. -/
theorem C9_collect_counterexample :
    collectFingerprintComponents
      { fpEnvBlockedProbes with bodyPresent := false } =
      Except.error () := rfl

/-- C9 amended: the wrapped probes do fall back to sentinels — a blocked
canvas yields the fixed `"canvas_not_supported"` string and an
unavailable WebGL context (or missing debug extension, or a throw)
yields null vendor/renderer — and collection succeeds whenever the
document body is present; but the font-detection and ad-blocker probes
are not wrapped, so their failures propagate. -/
theorem C9_sentinel_fallbacks (e : FPEnv) (hbody : e.bodyPresent = true) :
    (∃ c : FingerprintComponents,
      collectFingerprintComponents e = Except.ok c) ∧
    (∀ c : FingerprintComponents,
      collectFingerprintComponents e = Except.ok c →
      (e.canvasProbe = Except.error () →
        c.canvasHash = "canvas_not_supported") ∧
      (e.webgl = WebGLProbe.noContext ∨ e.webgl = WebGLProbe.noDebugInfo ∨
          e.webgl = WebGLProbe.throws →
        c.webglVendor = none ∧ c.webglRenderer = none)) := by
  have hfonts : ∃ fs, detectFonts e = Except.ok fs := by
    unfold detectFonts
    rw [if_pos hbody]
    exact ⟨_, rfl⟩
  obtain ⟨fs, hfs⟩ := hfonts
  have had : detectAdBlocker e = Except.ok e.adBlocked := by
    unfold detectAdBlocker
    rw [if_pos hbody]
  have hcol : collectFingerprintComponents e = Except.ok
      { userAgent := e.userAgent, language := e.language,
        languages := e.languages, platform := e.platform,
        cores := e.cores, deviceMemory := e.deviceMemory,
        screenRes := e.screenRes, colorDepth := e.colorDepth,
        pixelRatio := e.pixelRatio, timezone := e.timezone,
        timezoneStr := e.timezoneStr, touchPoints := e.touchPoints,
        cookiesEnabled := e.cookiesEnabled,
        localStorage := e.localStorageAvail,
        sessionStorage := e.sessionStorageAvail,
        indexedDB := e.indexedDBAvail, doNotTrack := e.doNotTrack,
        adBlocker := e.adBlocked, audioCodecs := e.audioCodecs,
        videoCodecs := e.videoCodecs, webglVendor := (getWebGLInfo e).1,
        webglRenderer := (getWebGLInfo e).2,
        canvasHash := generateCanvasFingerprint e, fonts := fs,
        batteryInfo := getBatteryInfo e,
        connectionType := getConnectionType e, plugins := e.plugins,
        perfMath := e.perfMath, perfSort := e.perfSort } := by
    unfold collectFingerprintComponents
    rw [hfs, had]
  refine ⟨⟨_, hcol⟩, ?_⟩
  intro c hc
  rw [hcol] at hc
  injection hc with hc
  subst hc
  constructor
  · intro hcv
    simp [generateCanvasFingerprint, hcv]
  · intro hgl
    rcases hgl with h | h | h <;> simp [getWebGLInfo, h]

/-- Witness for the amended C9 at the blocked-probe environment. -/
theorem C9_sentinel_fallbacks_witness :
    (∃ c : FingerprintComponents,
      collectFingerprintComponents fpEnvBlockedProbes = Except.ok c) ∧
    (∀ c : FingerprintComponents,
      collectFingerprintComponents fpEnvBlockedProbes = Except.ok c →
      (fpEnvBlockedProbes.canvasProbe = Except.error () →
        c.canvasHash = "canvas_not_supported") ∧
      (fpEnvBlockedProbes.webgl = WebGLProbe.noContext ∨
          fpEnvBlockedProbes.webgl = WebGLProbe.noDebugInfo ∨
          fpEnvBlockedProbes.webgl = WebGLProbe.throws →
        c.webglVendor = none ∧ c.webglRenderer = none)) :=
  C9_sentinel_fallbacks fpEnvBlockedProbes rfl
